import Mathlib

/-
  Verification of the Agent Execution Gateway of the synapse repository.

  The embedding below is a state-passing translation of the FastAPI handlers in
  src/script/src/synapse_python/pydantic_agent_wrapper.py (the primary wrapper)
  and src/apps/axon_python/src/axon_python/agent_wrapper.py (the axon wrapper).
  The mutable global dict `agent_instances` becomes an explicit association list
  passed in and returned by each operation; FastAPI responses become a
  `HttpResult` value carrying the status code and payload.  Calls into the
  external pydantic-ai library (the completion capability and its run loop) are
  either abstracted as function parameters of the handlers, or, where a claim is
  about the run loop itself, modelled from the specification (marked as such in
  the doc comments).
-/

set_option autoImplicit false

namespace Synapse

/-- A small JSON-like value universe used for tool arguments and results. -/
inductive Value where
  | vstr (s : String)
  | vint (n : Int)
  | vbool (b : Bool)
  | vnull
  deriving Repr, DecidableEq

/-- JSON documents, used to model the JSON response bodies the handlers build. -/
inductive Json where
  | jstr (s : String)
  | jnum (n : Int)
  | jbool (b : Bool)
  | jnull
  | jarr (xs : List Json)
  | jobj (fields : List (String × Json))

/-- Keys of a JSON object (empty for non-objects). -/
def Json.keys : Json → List String
  | .jobj fields => fields.map Prod.fst
  | _ => []

/-- Lookup of a key inside the field list of a JSON object. -/
def lookupField : List (String × Json) → String → Option Json
  | [], _ => none
  | (k, v) :: rest, key => if k == key then some v else lookupField rest key

/-- Lookup of a key in a JSON object (none for non-objects). -/
def Json.lookupKey : Json → String → Option Json
  | .jobj fields, key => lookupField fields key
  | _, _ => none

/-- Message kinds of the pydantic-ai `ModelMessage` type (request | response). -/
inductive MessageKind where
  | request
  | response
  deriving Repr, DecidableEq

/-- The message-part variants of the pydantic-ai message module, as used by the
wrappers and described in the data model: system prompt, user prompt, model
text, tool call, tool return and retry prompt. -/
inductive MessagePart where
  | systemPromptPart (content : String)
  | userPromptPart (content : String)
  | textPart (content : String)
  | toolCallPart (tool_name : String) (args : List (String × Value)) (tool_call_id : String)
  | toolReturnPart (tool_name : String) (content : Value) (tool_call_id : String)
  | retryPromptPart (content : String) (tool_name : String) (tool_call_id : String)
  deriving Repr, DecidableEq

/-- A conversation message: a kind (request | response) plus typed parts. -/
structure ModelMessage where
  kind : MessageKind
  parts : List MessagePart
  deriving Repr, DecidableEq

/-- Token/request counters of a run (pydantic-ai `Usage`). -/
structure Usage where
  requests : Nat
  request_tokens : Nat
  response_tokens : Nat
  total_tokens : Nat
  deriving Repr, DecidableEq

/-- The value returned by a completed run: `data`, `all_messages()` and `usage`,
exactly the three components the pydantic wrapper reads off the library result
object at lines 114-118 of pydantic_agent_wrapper.py. -/
structure RunResult where
  data : Value
  messages : List ModelMessage
  usage : Usage
  deriving Repr, DecidableEq

/-- A tool attached to an agent: a name plus an invokable handler that takes a
mapping of argument name to value and returns a value or fails. -/
structure ToolSpec where
  name : String
  handler : List (String × Value) → Except String Value

/-- An agent instance as held in the registry: model reference, system prompt
and tool set (the pydantic-ai `Agent` object built by the constructor call at
lines 83-88 of pydantic_agent_wrapper.py). -/
structure Agent where
  model : String
  system_prompt : String
  tools : List ToolSpec

/-- The global registry `agent_instances : Dict[str, Agent]`, as an explicit
association list with python-dict lookup semantics. -/
abbrev Registry := List (String × Agent)

/-- `agent_instances.get(agent_id)`. -/
def lookupAgent : Registry → String → Option Agent
  | [], _ => none
  | (k, a) :: rest, agent_id => if k == agent_id then some a else lookupAgent rest agent_id

/-- Remove every binding of `agent_id` (`del agent_instances[agent_id]`). -/
def eraseAgent (reg : Registry) (agent_id : String) : Registry :=
  reg.filter (fun p => !(p.1 == agent_id))

/-- `agent_instances[agent_id] = agent`: python dict assignment binds the key to
the new value, silently replacing any previous binding. -/
def insertAgent (reg : Registry) (agent_id : String) (agent : Agent) : Registry :=
  (agent_id, agent) :: eraseAgent reg agent_id

/-- `agent_id in agent_instances`. -/
def containsAgent (reg : Registry) (agent_id : String) : Bool :=
  (lookupAgent reg agent_id).isSome

/-- Outcome of one HTTP handler call: a successful payload, or an error response
with its status code and detail string (HTTPException / the registered
exception handlers). -/
inductive HttpResult (α : Type) where
  | ok (value : α)
  | httpError (status : Nat) (detail : String)
  deriving Repr, DecidableEq

/-- Status code of a handler outcome (FastAPI returns 200 for a plain value). -/
def statusOf {α : Type} : HttpResult α → Nat
  | .ok _ => 200
  | .httpError s _ => s

/-- JSON encoding of a `Value` (`to_jsonable_python` on a primitive). -/
def encodeValue : Value → Json
  | .vstr s => .jstr s
  | .vint n => .jnum n
  | .vbool b => .jbool b
  | .vnull => .jnull

/-- JSON encoding of a tool-argument mapping. -/
def encodeArgs (args : List (String × Value)) : Json :=
  .jobj (args.map (fun p => (p.1, encodeValue p.2)))

/-- JSON encoding of one message part, carrying its `part_kind` tag. -/
def encodePart : MessagePart → Json
  | .systemPromptPart c =>
      .jobj [("part_kind", .jstr "system-prompt"), ("content", .jstr c)]
  | .userPromptPart c =>
      .jobj [("part_kind", .jstr "user-prompt"), ("content", .jstr c)]
  | .textPart c =>
      .jobj [("part_kind", .jstr "text"), ("content", .jstr c)]
  | .toolCallPart tn args cid =>
      .jobj [("part_kind", .jstr "tool-call"), ("tool_name", .jstr tn),
             ("args", encodeArgs args), ("tool_call_id", .jstr cid)]
  | .toolReturnPart tn v cid =>
      .jobj [("part_kind", .jstr "tool-return"), ("tool_name", .jstr tn),
             ("content", encodeValue v), ("tool_call_id", .jstr cid)]
  | .retryPromptPart c tn cid =>
      .jobj [("part_kind", .jstr "retry-prompt"), ("content", .jstr c),
             ("tool_name", .jstr tn), ("tool_call_id", .jstr cid)]

/-- JSON encoding of one conversation message. -/
def encodeMessage (m : ModelMessage) : Json :=
  .jobj [("kind", .jstr (match m.kind with
            | .request => "request"
            | .response => "response")),
         ("parts", .jarr (m.parts.map encodePart))]

/-- JSON encoding of the usage counters. -/
def encodeUsage (u : Usage) : Json :=
  .jobj [("requests", .jnum (Int.ofNat u.requests)),
         ("request_tokens", .jnum (Int.ofNat u.request_tokens)),
         ("response_tokens", .jnum (Int.ofNat u.response_tokens)),
         ("total_tokens", .jnum (Int.ofNat u.total_tokens))]

/-- The `AgentConfig` request model of pydantic_agent_wrapper.py lines 26-32:
agent_id, model, system_prompt, plus optional tool and result-schema payloads
that are handed to the external `Agent` constructor unchanged. -/
structure AgentConfig where
  agent_id : String
  model : String
  system_prompt : String
  tools : Option Json
  result_type : Option Json

/-- The `RunRequest` model of pydantic_agent_wrapper.py lines 34-41.  Note that
it has no usage_limits field. -/
structure RunRequest where
  prompt : String
  message_history : Option (List ModelMessage)
  model_settings : Option Json
  system_prompt : Option String
  tools : Option Json
  result_type : Option Json

/-- The `ToolCallRequest` model of pydantic_agent_wrapper.py lines 43-46. -/
structure ToolCallRequest where
  tool_name : String
  args : List (String × Value)

/-- POST /agents of pydantic_agent_wrapper.py lines 79-93.  `mkAgent` stands
for the external pydantic-ai `Agent` constructor, which may raise.  The handler
never checks whether `config.agent_id` is already registered: on construction
success the dict assignment at line 89 binds the id unconditionally, replacing
any existing agent; on failure the exception is mapped to HTTP 500. -/
def create_agent (mkAgent : AgentConfig → Except String Agent)
    (reg : Registry) (config : AgentConfig) : HttpResult String × Registry :=
  match mkAgent config with
  | .ok agent =>
      (.ok ("Agent " ++ config.agent_id ++ " created"), insertAgent reg config.agent_id agent)
  | .error e => (.httpError 500 e, reg)

/-- DELETE /agents/agent_id of pydantic_agent_wrapper.py lines 95-101: delete
the binding when present, otherwise raise AgentNotFoundError, which the
registered exception handler (lines 57-62) maps to HTTP 404. -/
def delete_agent (reg : Registry) (agent_id : String) : HttpResult String × Registry :=
  if containsAgent reg agent_id then
    (.ok ("Agent " ++ agent_id ++ " deleted"), eraseAgent reg agent_id)
  else
    (.httpError 404 ("Agent " ++ agent_id ++ " not found"), reg)

/-- POST /run of pydantic_agent_wrapper.py lines 104-121.  `_get_agent` (lines
152-158) raises AgentNotFoundError, mapped to 404, when the id is absent; this
lookup happens before the try block.  `runner` stands for the external
`agent.run` call, receiving exactly the arguments the handler passes: prompt,
message_history and model_settings (line 109-113).  On success the handler
returns the JSON object with result, messages and usage (lines 114-118); any
exception from the run is mapped to HTTP 500 (lines 119-121). -/
def run_agent
    (runner : Agent → String → Option (List ModelMessage) → Option Json → Except String RunResult)
    (reg : Registry) (agent_id : String) (req : RunRequest) : HttpResult Json × Registry :=
  match lookupAgent reg agent_id with
  | none => (.httpError 404 ("Agent " ++ agent_id ++ " not found"), reg)
  | some agent =>
      match runner agent req.prompt req.message_history req.model_settings with
      | .ok result =>
          (.ok (.jobj [("result", encodeValue result.data),
                       ("messages", .jarr (result.messages.map encodeMessage)),
                       ("usage", encodeUsage result.usage)]), reg)
      | .error e => (.httpError 500 e, reg)

/-- The lazy fragment source produced by the external `agent.run_stream`: the
text chunks it yields, plus the exception (if any) it raises after them. -/
structure StreamSource where
  chunks : List String
  err : Option String

/-- `_stream_response` of pydantic_agent_wrapper.py lines 160-169: each chunk
is yielded as an SSE data line; an exception while iterating is caught and
yielded as a final error line instead of propagating; the finally block then
yields the end-of-stream marker in every case. -/
def stream_response (src : StreamSource) : List String :=
  src.chunks.map (fun c => "data: " ++ c ++ "\n\n")
    ++ (match src.err with
        | some e => ["error: " ++ e ++ "\n\n"]
        | none => [])
    ++ ["data: [DONE]\n\n"]

/-- POST /run/stream of pydantic_agent_wrapper.py lines 123-139: resolve the
agent (404 when absent), start the external stream (`streamer` abstracts
`agent.run_stream` with the arguments the handler passes), and serve it through
`_stream_response`; a failure to start the stream is mapped to HTTP 500. -/
def run_agent_stream
    (streamer : Agent → String → Option (List ModelMessage) → Option Json → Except String StreamSource)
    (reg : Registry) (agent_id : String) (req : RunRequest) :
    HttpResult (List String) × Registry :=
  match lookupAgent reg agent_id with
  | none => (.httpError 404 ("Agent " ++ agent_id ++ " not found"), reg)
  | some agent =>
      match streamer agent req.prompt req.message_history req.model_settings with
      | .ok src => (.ok (stream_response src), reg)
      | .error e => (.httpError 500 e, reg)

/-- Modelled from the spec: `agent.call_tool` is invoked by the handler at line
146 of pydantic_agent_wrapper.py but is not defined under src/ (tool resolution
and invocation live in the external library); section 4.2 of the spec says
resolution of an undeclared tool name fails with ToolNotFound and invocation
otherwise runs the handler, which may itself fail. -/
def agentCallTool (agent : Agent) (tool_name : String) (args : List (String × Value)) :
    Except String Value :=
  match agent.tools.find? (fun t => t.name == tool_name) with
  | none => .error ("Tool not found: " ++ tool_name)
  | some t => t.handler args

/-- POST /tool_call of pydantic_agent_wrapper.py lines 141-150: resolve the
agent (404 when absent, before the try block), call the tool, and map every
exception raised by the call, tool-not-found included, to HTTP 500 with the
exception text (lines 148-150). -/
def call_tool (reg : Registry) (agent_id : String) (req : ToolCallRequest) :
    HttpResult Value × Registry :=
  match lookupAgent reg agent_id with
  | none => (.httpError 404 ("Agent " ++ agent_id ++ " not found"), reg)
  | some agent =>
      match agentCallTool agent req.tool_name req.args with
      | .ok v => (.ok v, reg)
      | .error e => (.httpError 500 e, reg)

/-- Usage limits as accepted by run_sync: max total tokens / max requests. -/
structure UsageLimits where
  max_total_tokens : Option Nat
  max_requests : Option Nat
  deriving Repr, DecidableEq

/-- Failure kinds of a run: the usage limit was hit, or the model produced an
unusable response / the retry budget ran out. -/
inductive RunError where
  | usageLimitExceeded
  | modelBehavior (msg : String)
  deriving Repr, DecidableEq

/-- One reply of the external completion capability: the response parts and the
number of tokens it consumed. -/
structure ModelReply where
  parts : List MessagePart
  tokens : Nat

/-- Modelled from the spec: the usage-limit check of the run loop, which lives
in the external pydantic-ai library and not under src/.  Section 4.3: with
usage limits provided, "the run MUST stop and fail with UsageLimitExceeded once
exceeded rather than continuing to call the model", and section 8: a run with
max_total_tokens = 0 "fails with UsageLimitExceeded before any model call is
attempted" — so before each model call the run stops when the tokens or
requests already consumed have reached the corresponding cap. -/
def limitExceeded (limits : Option UsageLimits) (u : Usage) : Bool :=
  match limits with
  | none => false
  | some l =>
      (match l.max_total_tokens with
       | some t => decide (t ≤ u.total_tokens)
       | none => false)
      || (match l.max_requests with
          | some r => decide (r ≤ u.requests)
          | none => false)

/-- Account one model call: one more request, `t` more response tokens. -/
def bumpUsage (u : Usage) (t : Nat) : Usage :=
  ⟨u.requests + 1, u.request_tokens, u.response_tokens + t, u.total_tokens + t⟩

/-- Modelled from the spec (section 4.3): handling of one response part during
the run loop — a tool-call part is answered by invoking the named tool of the
agent, yielding a tool-return part on success and a retry prompt describing the
failure otherwise; other parts produce no reply part. -/
def toolStep (agent : Agent) : MessagePart → Option MessagePart
  | .toolCallPart tn args cid =>
      some (match agent.tools.find? (fun t => t.name == tn) with
        | none => .retryPromptPart ("Tool not found: " ++ tn) tn cid
        | some t =>
            match t.handler args with
            | .ok v => .toolReturnPart tn v cid
            | .error e => .retryPromptPart e tn cid)
  | _ => none

/-- Terminal data of a run: the concatenated text parts of the final response. -/
def terminalData (parts : List MessagePart) : Value :=
  .vstr (String.join (parts.filterMap (fun p =>
    match p with
    | .textPart c => some c
    | _ => none)))

/-- Modelled from the spec: the initial request message of a run (section 4.3)
combines the system prompt (once, only if the history is empty) with the prior
history and a new user-prompt part carrying the prompt. -/
def initialMessages (agent : Agent) (prompt : String)
    (history : Option (List ModelMessage)) : List ModelMessage :=
  match history with
  | some (m :: rest) =>
      (m :: rest) ++ [⟨MessageKind.request, [MessagePart.userPromptPart prompt]⟩]
  | _ =>
      [⟨MessageKind.request,
        [MessagePart.systemPromptPart agent.system_prompt, MessagePart.userPromptPart prompt]⟩]

/-- Modelled from the spec: the run loop of `Agent.run_sync` (section 4.3),
which lives in the external pydantic-ai library and not under src/.  Repeat up
to the retry budget: stop with UsageLimitExceeded before calling the model when
the limits are already hit; otherwise call the completion capability, account
its usage, answer any tool-call parts through the agent tool set and loop, and
return a RunResult when the response is terminal.  Exhausting the budget is a
hard failure.  The second component counts the model calls actually made. -/
def runLoop (agent : Agent) (callModel : List ModelMessage → ModelReply)
    (limits : Option UsageLimits) :
    Nat → List ModelMessage → Usage → Nat → Except RunError RunResult × Nat
  | 0, _, _, calls => (.error (.modelBehavior "retry budget exhausted"), calls)
  | fuel + 1, msgs, u, calls =>
      if limitExceeded limits u then
        (.error .usageLimitExceeded, calls)
      else
        if ((callModel msgs).parts.filterMap (toolStep agent)).isEmpty then
          (.ok ⟨terminalData (callModel msgs).parts,
                msgs ++ [⟨MessageKind.response, (callModel msgs).parts⟩],
                bumpUsage u (callModel msgs).tokens⟩, calls + 1)
        else
          runLoop agent callModel limits fuel
            (msgs ++ [⟨MessageKind.response, (callModel msgs).parts⟩,
                      ⟨MessageKind.request, (callModel msgs).parts.filterMap (toolStep agent)⟩])
            (bumpUsage u (callModel msgs).tokens) (calls + 1)

/-- Modelled from the spec: `Agent.run_sync` — build the initial messages and
run the loop from fresh usage counters.  Returns the run outcome together with
the number of model calls made. -/
def agentRunSync (callModel : List ModelMessage → ModelReply) (retries : Nat)
    (agent : Agent) (prompt : String) (history : Option (List ModelMessage))
    (limits : Option UsageLimits) : Except RunError RunResult × Nat :=
  runLoop agent callModel limits retries (initialMessages agent prompt history) ⟨0, 0, 0, 0⟩ 0

/-- Error text of a run failure as seen through the pydantic wrapper. -/
def runErrMsg : RunError → String
  | .usageLimitExceeded => "usage limit exceeded"
  | .modelBehavior m => m

/-- `agent.run` as invoked by the pydantic wrapper handler (line 109-113 of
pydantic_agent_wrapper.py): prompt, message_history and model_settings are
passed, and no usage_limits argument at all, so the spec-modelled run loop
executes with no limits. -/
def pydanticRunner (callModel : List ModelMessage → ModelReply) (retries : Nat)
    (agent : Agent) (prompt : String) (history : Option (List ModelMessage))
    (_settings : Option Json) : Except String RunResult :=
  match (runLoop agent callModel none retries (initialMessages agent prompt history) ⟨0, 0, 0, 0⟩ 0).1 with
  | .ok r => .ok r
  | .error e => .error (runErrMsg e)

/-- The raw JSON body a caller may send to POST /run of the pydantic wrapper,
including a usage_limits member.  pydantic validation of `RunRequest` ignores
members that are not declared as fields, and `RunRequest` declares no
usage_limits field (lines 34-41), so the limits are discarded by parsing. -/
structure RawRunRequest where
  prompt : String
  message_history : Option (List ModelMessage)
  model_settings : Option Json
  usage_limits : Option UsageLimits

/-- Validation of a raw run request body into `RunRequest`: the declared fields
are copied and the undeclared usage_limits member is dropped. -/
def parseRunRequest (raw : RawRunRequest) : RunRequest :=
  ⟨raw.prompt, raw.message_history, raw.model_settings, none, none, none⟩

/-- The request body of the axon wrapper run_sync endpoint (request_data dict,
read with .get at lines 234-239 of apps/axon_python agent_wrapper.py). -/
structure AxonRunRequest where
  prompt : String
  message_history : Option (List ModelMessage)
  model_settings : Option Json
  usage_limits : Option UsageLimits

/-- Detail text of a run failure as mapped by the axon run_sync handler: an
UnexpectedModelBehavior is wrapped with a fixed text, every other exception
(UsageLimitExceeded included) is stringified; both become HTTP 500. -/
def axonErrDetail : RunError → String
  | .usageLimitExceeded => "usage limit exceeded"
  | .modelBehavior m => "Unexpected model behavior: " ++ m

/-- POST /agents/agent_id/run_sync of apps/axon_python agent_wrapper.py lines
226-253 (the later of the two identical route registrations): 404 when the id
is not registered; otherwise call `agent.run_sync` forwarding prompt,
message_history, model_settings and usage_limits, and on success return a JSON
body holding only result and usage (lines 241-244); run failures become HTTP
500.  The run itself is the spec-modelled loop (`agentRunSync`); the third
component of the result counts the model calls made. -/
def axon_run_agent_sync (callModel : List ModelMessage → ModelReply) (retries : Nat)
    (reg : Registry) (agent_id : String) (req : AxonRunRequest) :
    HttpResult Json × Registry × Nat :=
  match lookupAgent reg agent_id with
  | none => (.httpError 404 "Agent not found", reg, 0)
  | some agent =>
      match agentRunSync callModel retries agent req.prompt req.message_history req.usage_limits with
      | (.ok r, calls) =>
          (.ok (.jobj [("result", encodeValue r.data), ("usage", encodeUsage r.usage)]), reg, calls)
      | (.error e, calls) => (.httpError 500 (axonErrDetail e), reg, calls)

/-- `event_stream` of apps/axon_python agent_wrapper.py lines 219-224: every
event is yielded as an SSE data line carrying its JSON encoding; an exception
while iterating is caught and yielded as a JSON error object.  Nothing else is
yielded afterwards: the generator has no end-of-stream marker. -/
def event_stream (src : StreamSource) : List String :=
  src.chunks.map (fun c => "data: \x22" ++ c ++ "\x22\n\n")
    ++ (match src.err with
        | some e => ["data: \x7b\x22error\x22: \x22" ++ e ++ "\x22\x7d\n\n"]
        | none => [])

/-- POST /agents of apps/axon_python agent_wrapper.py lines 124-151.  The
duplicate-id check at line 128 raises HTTPException(400, "Agent with this ID
already exists") inside the try block, whose final handler (line 150) catches
every Exception — fastapi HTTPException included — and re-raises it as
HTTPException(500, str(e)); the string of the original exception is its status
code followed by the detail.  On a fresh id, line 133 calls _resolve_tools,
whose definition is commented out (lines 50-62 of the same file), so the call
raises NameError, mapped to HTTP 500 by the same handler; the agent
construction and registration below line 133 is unreachable, and the registry
is never changed. -/
def axon_create_agent (reg : Registry) (agent_id : String) : HttpResult String × Registry :=
  if containsAgent reg agent_id then
    (.httpError 500 "400: Agent with this ID already exists", reg)
  else
    (.httpError 500 "name _resolve_tools is not defined", reg)

/-! ### Helper lemmas -/

/-- After deleting an id from the registry, looking it up yields nothing. -/
theorem lookupAgent_eraseAgent (reg : Registry) (agent_id : String) :
    lookupAgent (eraseAgent reg agent_id) agent_id = none := by
  induction reg with
  | nil => rfl
  | cons p rest ih =>
    obtain ⟨k, a⟩ := p
    by_cases hk : k == agent_id
    · simpa [eraseAgent, hk] using ih
    · simpa [eraseAgent, lookupAgent, hk] using ih

/-- The run handler never changes the registry. -/
theorem run_agent_registry
    (runner : Agent → String → Option (List ModelMessage) → Option Json → Except String RunResult)
    (reg : Registry) (agent_id : String) (req : RunRequest) :
    (run_agent runner reg agent_id req).2 = reg := by
  unfold run_agent
  split
  · rfl
  · split <;> rfl

/-- The streaming run handler never changes the registry. -/
theorem run_agent_stream_registry
    (streamer : Agent → String → Option (List ModelMessage) → Option Json → Except String StreamSource)
    (reg : Registry) (agent_id : String) (req : RunRequest) :
    (run_agent_stream streamer reg agent_id req).2 = reg := by
  unfold run_agent_stream
  split
  · rfl
  · split <;> rfl

/-- The tool-call handler never changes the registry. -/
theorem call_tool_registry (reg : Registry) (agent_id : String) (req : ToolCallRequest) :
    (call_tool reg agent_id req).2 = reg := by
  unfold call_tool
  split
  · rfl
  · split <;> rfl

/-- The axon run_sync handler never changes the registry. -/
theorem axon_run_agent_sync_registry (callModel : List ModelMessage → ModelReply)
    (retries : Nat) (reg : Registry) (agent_id : String) (req : AxonRunRequest) :
    (axon_run_agent_sync callModel retries reg agent_id req).2.1 = reg := by
  unfold axon_run_agent_sync
  split
  · rfl
  · split <;> rfl

/-- A run whose usage already meets a provided cap stops with
UsageLimitExceeded without making any further model call. -/
theorem runLoop_limit_stop (agent : Agent) (callModel : List ModelMessage → ModelReply)
    (limits : Option UsageLimits) (fuel : Nat) (msgs : List ModelMessage)
    (u : Usage) (calls : Nat)
    (hfuel : 0 < fuel) (hlim : limitExceeded limits u = true) :
    runLoop agent callModel limits fuel msgs u calls = (.error .usageLimitExceeded, calls) := by
  obtain ⟨n, rfl⟩ := Nat.exists_eq_succ_of_ne_zero (Nat.pos_iff_ne_zero.mp hfuel)
  rw [runLoop, if_pos hlim]

/-- A successful run only appends: its message sequence extends the messages it
started from. -/
theorem runLoop_ok_extends (agent : Agent) (callModel : List ModelMessage → ModelReply)
    (limits : Option UsageLimits) :
    ∀ (fuel : Nat) (msgs : List ModelMessage) (u : Usage) (calls : Nat) (r : RunResult),
      (runLoop agent callModel limits fuel msgs u calls).1 = .ok r →
      ∃ s, r.messages = msgs ++ s := by
  intro fuel
  induction fuel with
  | zero =>
    intro msgs u calls r h
    simp [runLoop] at h
  | succ n ih =>
    intro msgs u calls r h
    rw [runLoop] at h
    by_cases hl : limitExceeded limits u = true
    · rw [if_pos hl] at h
      simp at h
    · rw [if_neg hl] at h
      by_cases he : ((callModel msgs).parts.filterMap (toolStep agent)).isEmpty = true
      · rw [if_pos he] at h
        obtain rfl := Except.ok.inj h
        exact ⟨_, rfl⟩
      · rw [if_neg he] at h
        obtain ⟨s, hs⟩ := ih _ _ _ _ h
        exact ⟨_, by rw [hs, List.append_assoc]⟩

/-- The last element of a list extended by one element. -/
theorem getLast?_append_one {α : Type} (l : List α) (a : α) :
    (l ++ [a]).getLast? = some a := by
  induction l with
  | nil => rfl
  | cons x xs ih =>
    cases xs with
    | nil => rfl
    | cons y ys => simp [List.getLast?, ih]

/-- Dropping the last element of a list extended by one element. -/
theorem dropLast_append_one {α : Type} (l : List α) (a : α) :
    (l ++ [a]).dropLast = l := by
  induction l with
  | nil => rfl
  | cons x xs ih =>
    cases xs with
    | nil => rfl
    | cons y ys => simp [List.dropLast, ih]

/-- Taking the length of the left summand of an append gives it back. -/
theorem take_length_append {α : Type} (l t : List α) :
    (l ++ t).take l.length = l := by
  induction l with
  | nil => rfl
  | cons x xs ih => simp [List.take, ih]

/-! ### Concrete values used by witnesses and counterexamples -/

/-- A concrete agent with no tools. -/
def demoAgent : Agent := ⟨"openai:gpt-4o", "sys", []⟩

/-- A registry holding one agent under id "a". -/
def demoReg : Registry := [("a", demoAgent)]

/-- A concrete run request with no optional inputs. -/
def demoRunReq : RunRequest := ⟨"hi", none, none, none, none, none⟩

/-- A concrete external agent constructor that succeeds, building the agent
from the configuration. -/
def mkFromConfig : AgentConfig → Except String Agent :=
  fun c => .ok ⟨c.model, c.system_prompt, []⟩

/-- A configuration whose agent_id collides with the one in `demoReg`. -/
def demoConfig : AgentConfig := ⟨"a", "m1", "s1", none, none⟩

/-- A tool whose handler always fails (an internal tool-execution error). -/
def boomTool : ToolSpec := ⟨"boom", fun _ => .error "kaboom"⟩

/-- A tool whose handler always succeeds. -/
def echoTool : ToolSpec := ⟨"echo", fun _ => .ok (.vstr "ok")⟩

/-- A concrete agent declaring the two tools above. -/
def toolAgent : Agent := ⟨"m", "s", [boomTool, echoTool]⟩

/-- A registry holding `toolAgent` under id "a". -/
def toolReg : Registry := [("a", toolAgent)]

/-- A completion capability that replies with one text part of five tokens. -/
def cmText : List ModelMessage → ModelReply := fun _ => ⟨[.textPart "hi"], 5⟩

/-! ### Claim theorems -/

/-- C1 (code evaluated at the failing input): with the registry already holding
agent_id "a", the pydantic wrapper create_agent succeeds and silently replaces
the registered agent instead of failing with DuplicateAgentId, and the axon
wrapper create_agent returns the generic 500 outcome (its 400 duplicate
HTTPException is swallowed by its own except-Exception handler) rather than a
distinct DuplicateAgentId outcome. -/
theorem create_agent_duplicate_overwrites :
    create_agent mkFromConfig demoReg demoConfig
      = (.ok "Agent a created", [("a", ⟨"m1", "s1", []⟩)]) ∧
    axon_create_agent demoReg "a"
      = (.httpError 500 "400: Agent with this ID already exists", demoReg) :=
  ⟨rfl, rfl⟩

/-- C4: delete_agent on an unregistered id fails with the 404 AgentNotFound
outcome and leaves the registry unchanged; and whenever delete_agent succeeds,
a subsequent run against the deleted id fails with the 404 AgentNotFound
outcome. -/
theorem delete_agent_not_found_spec :
    (∀ (reg : Registry) (agent_id : String), lookupAgent reg agent_id = none →
        delete_agent reg agent_id
          = (.httpError 404 ("Agent " ++ agent_id ++ " not found"), reg)) ∧
    (∀ (runner : Agent → String → Option (List ModelMessage) → Option Json → Except String RunResult)
        (reg : Registry) (agent_id msg : String) (st : Registry) (req : RunRequest),
        delete_agent reg agent_id = (.ok msg, st) →
        (run_agent runner st agent_id req).1
          = .httpError 404 ("Agent " ++ agent_id ++ " not found")) := by
  constructor
  · intro reg agent_id h
    unfold delete_agent containsAgent
    rw [h]
    rfl
  · intro runner reg agent_id msg st req h
    unfold delete_agent at h
    by_cases hc : containsAgent reg agent_id = true
    · rw [if_pos hc] at h
      obtain ⟨-, rfl⟩ := Prod.mk.injEq .. ▸ h
      unfold run_agent
      rw [lookupAgent_eraseAgent]
    · rw [if_neg hc] at h
      simp at h

/-- C4 witness: concrete instances of both halves. -/
theorem delete_agent_not_found_spec_witness :
    delete_agent ([] : Registry) "a" = (.httpError 404 ("Agent " ++ "a" ++ " not found"), []) ∧
    (run_agent (pydanticRunner cmText 1) (eraseAgent demoReg "a") "a" demoRunReq).1
      = .httpError 404 ("Agent " ++ "a" ++ " not found") :=
  ⟨delete_agent_not_found_spec.1 [] "a" rfl,
   delete_agent_not_found_spec.2 (pydanticRunner cmText 1) demoReg "a"
     ("Agent " ++ "a" ++ " deleted") (eraseAgent demoReg "a") demoRunReq rfl⟩

/-- C8: calling call_tool twice with identical tool name and arguments yields
identical outcomes: the second call runs against the state left by the first
and returns the very same result (every embedded tool handler is a pure
function). -/
theorem call_tool_idempotent (reg : Registry) (agent_id : String) (req : ToolCallRequest) :
    call_tool (call_tool reg agent_id req).2 agent_id req = call_tool reg agent_id req := by
  rw [call_tool_registry]

/-- C9: when the external agent construction fails, the pydantic create_agent
returns the 500 outcome with the registry unchanged, so no partially
constructed agent is visible; and the axon create_agent never succeeds and
never changes the registry (every path of it fails before registration). -/
theorem create_agent_failure_atomic :
    (∀ (mkAgent : AgentConfig → Except String Agent) (reg : Registry)
        (config : AgentConfig) (e : String), mkAgent config = .error e →
        create_agent mkAgent reg config = (.httpError 500 e, reg)) ∧
    (∀ (reg : Registry) (agent_id : String),
        (axon_create_agent reg agent_id).2 = reg ∧
        statusOf (axon_create_agent reg agent_id).1 = 500) := by
  constructor
  · intro mkAgent reg config e h
    unfold create_agent
    rw [h]
  · intro reg agent_id
    unfold axon_create_agent
    by_cases hc : containsAgent reg agent_id = true
    · rw [if_pos hc]
      exact ⟨rfl, rfl⟩
    · rw [if_neg hc]
      exact ⟨rfl, rfl⟩

/-- C9 witness: a failing construction at a concrete input leaves the concrete
registry unchanged. -/
theorem create_agent_failure_atomic_witness :
    create_agent (fun _ => .error "bad model") demoReg demoConfig
      = (.httpError 500 "bad model", demoReg) :=
  create_agent_failure_atomic.1 (fun _ => .error "bad model") demoReg demoConfig "bad model" rfl

/-- C10: the execution operations — run, streaming run, tool call, and the axon
run_sync — leave the registry exactly as they found it, whether they succeed or
fail; only create_agent and delete_agent build new registry values. -/
theorem execution_ops_preserve_registry
    (runner : Agent → String → Option (List ModelMessage) → Option Json → Except String RunResult)
    (streamer : Agent → String → Option (List ModelMessage) → Option Json → Except String StreamSource)
    (callModel : List ModelMessage → ModelReply) (retries : Nat)
    (reg : Registry) (agent_id : String) (req : RunRequest) (treq : ToolCallRequest)
    (areq : AxonRunRequest) :
    (run_agent runner reg agent_id req).2 = reg ∧
    (run_agent_stream streamer reg agent_id req).2 = reg ∧
    (call_tool reg agent_id treq).2 = reg ∧
    (axon_run_agent_sync callModel retries reg agent_id areq).2.1 = reg :=
  ⟨run_agent_registry runner reg agent_id req,
   run_agent_stream_registry streamer reg agent_id req,
   call_tool_registry reg agent_id treq,
   axon_run_agent_sync_registry callModel retries reg agent_id areq⟩

/-- C5 (amended): for a registered agent, call_tool with a tool name the agent
does not declare fails with the tool-not-found message — but mapped, like every
tool failure, to the generic HTTP 500 outcome — and the agent stays registered
and usable: the registry is unchanged and any subsequent call behaves exactly
as it would have without the failed call. -/
theorem call_tool_unknown_tool_spec
    (reg : Registry) (agent_id : String) (agent : Agent) (req : ToolCallRequest)
    (hl : lookupAgent reg agent_id = some agent)
    (hf : agent.tools.find? (fun t => t.name == req.tool_name) = none) :
    (call_tool reg agent_id req).1 = .httpError 500 ("Tool not found: " ++ req.tool_name) ∧
    (call_tool reg agent_id req).2 = reg ∧
    ∀ req2 : ToolCallRequest,
      call_tool (call_tool reg agent_id req).2 agent_id req2 = call_tool reg agent_id req2 := by
  have hreg : (call_tool reg agent_id req).2 = reg := call_tool_registry reg agent_id req
  refine ⟨?_, hreg, fun req2 => by rw [hreg]⟩
  simp only [call_tool, hl, agentCallTool, hf]

/-- C5 witness: the concrete tool agent at an undeclared tool name. -/
theorem call_tool_unknown_tool_spec_witness :
    (call_tool toolReg "a" ⟨"missing", []⟩).1
      = .httpError 500 ("Tool not found: " ++ "missing") ∧
    call_tool (call_tool toolReg "a" ⟨"missing", []⟩).2 "a" ⟨"echo", []⟩
      = call_tool toolReg "a" ⟨"echo", []⟩ :=
  ⟨(call_tool_unknown_tool_spec toolReg "a" toolAgent ⟨"missing", []⟩ rfl rfl).1,
   (call_tool_unknown_tool_spec toolReg "a" toolAgent ⟨"missing", []⟩ rfl rfl).2.2 ⟨"echo", []⟩⟩

/-- C5 counterexample to the claim as stated: the unknown-tool outcome is not
distinct from an internal tool-execution error — both are surfaced as the same
HTTP 500 status by the handler's blanket exception mapping. -/
theorem call_tool_unknown_status_not_distinct :
    statusOf (call_tool toolReg "a" ⟨"missing", []⟩).1 = 500 ∧
    statusOf (call_tool toolReg "a" ⟨"boom", []⟩).1 = 500 ∧
    statusOf (call_tool toolReg "a" ⟨"missing", []⟩).1
      = statusOf (call_tool toolReg "a" ⟨"boom", []⟩).1 :=
  ⟨rfl, rfl, rfl⟩

/-- C6 (amended): the pydantic wrapper stream always ends with the explicit
end-of-stream marker, and when producing fragments fails the element right
before that marker is the error element, so no exception reaches the consumer
mid-iteration. -/
theorem stream_response_terminal_shape (src : StreamSource) :
    (stream_response src).getLast? = some "data: [DONE]\n\n" ∧
    ∀ e : String, src.err = some e →
      (stream_response src).dropLast.getLast? = some ("error: " ++ e ++ "\n\n") := by
  constructor
  · cases h : src.err with
    | none =>
      simp only [stream_response, h, List.append_nil]
      exact getLast?_append_one _ _
    | some e =>
      simp only [stream_response, h]
      exact getLast?_append_one _ _
  · intro e he
    simp only [stream_response, he]
    rw [dropLast_append_one]
    exact getLast?_append_one _ _

/-- C6 witness: a concrete failing stream served by the pydantic wrapper. -/
theorem stream_response_terminal_shape_witness :
    (stream_response ⟨["a"], some "boom"⟩).getLast? = some "data: [DONE]\n\n" ∧
    (stream_response ⟨["a"], some "boom"⟩).dropLast.getLast?
      = some ("error: " ++ "boom" ++ "\n\n") :=
  ⟨(stream_response_terminal_shape ⟨["a"], some "boom"⟩).1,
   (stream_response_terminal_shape ⟨["a"], some "boom"⟩).2 "boom" rfl⟩

/-- C6 counterexample to the claim as stated: the axon wrapper event_stream
turns a mid-stream failure into a final error element, but its sequence never
contains an end-of-stream marker — the error payload itself is the last
element. -/
theorem event_stream_lacks_done_marker :
    "data: [DONE]\n\n" ∉ event_stream ⟨["a"], some "boom"⟩ ∧
    (event_stream ⟨["a"], some "boom"⟩).getLast?
      = some "data: \x7b\x22error\x22: \x22boom\x22\x7d\n\n" := by
  exact ⟨by decide, rfl⟩

/-- C2 (amended, spec-modelled run loop): a run whose usage limits carry a
total-token cap that the tokens consumed already meet stops with
UsageLimitExceeded making no further model call; and the axon run_sync, which
forwards usage_limits into the run, fails with the UsageLimitExceeded outcome
after zero model calls when called with max_total_tokens = 0. -/
theorem run_sync_usage_limits_enforced :
    (∀ (agent : Agent) (callModel : List ModelMessage → ModelReply) (l : UsageLimits)
        (t fuel calls : Nat) (msgs : List ModelMessage) (u : Usage),
        l.max_total_tokens = some t → t ≤ u.total_tokens → 0 < fuel →
        runLoop agent callModel (some l) fuel msgs u calls
          = (.error .usageLimitExceeded, calls)) ∧
    (∀ (callModel : List ModelMessage → ModelReply) (retries : Nat) (reg : Registry)
        (agent_id : String) (req : AxonRunRequest) (agent : Agent) (mr : Option Nat),
        lookupAgent reg agent_id = some agent →
        req.usage_limits = some ⟨some 0, mr⟩ → 0 < retries →
        axon_run_agent_sync callModel retries reg agent_id req
          = (.httpError 500 "usage limit exceeded", reg, 0)) := by
  have key : ∀ (agent : Agent) (callModel : List ModelMessage → ModelReply) (l : UsageLimits)
      (t fuel calls : Nat) (msgs : List ModelMessage) (u : Usage),
      l.max_total_tokens = some t → t ≤ u.total_tokens → 0 < fuel →
      runLoop agent callModel (some l) fuel msgs u calls
        = (.error .usageLimitExceeded, calls) := by
    intro agent callModel l t fuel calls msgs u hmt ht hfuel
    obtain ⟨mt, mreq⟩ := l
    have hmt2 : mt = some t := hmt
    subst hmt2
    apply runLoop_limit_stop agent callModel (some ⟨some t, mreq⟩) fuel msgs u calls hfuel
    simp only [limitExceeded, Bool.or_eq_true, decide_eq_true_eq]
    exact Or.inl ht
  refine ⟨key, ?_⟩
  intro callModel retries reg agent_id req agent mr hl hreq hfuel
  have hrun : agentRunSync callModel retries agent req.prompt req.message_history req.usage_limits
      = (.error .usageLimitExceeded, 0) := by
    unfold agentRunSync
    rw [hreq]
    exact key agent callModel ⟨some 0, mr⟩ 0 retries 0 _ ⟨0, 0, 0, 0⟩ rfl (Nat.le_refl 0) hfuel
  simp only [axon_run_agent_sync, hl, hrun]
  rfl

/-- C2 witness: the concrete agent run with max_total_tokens = 0 fails with the
UsageLimitExceeded outcome before any model call. -/
theorem run_sync_usage_limits_enforced_witness :
    axon_run_agent_sync cmText 3 demoReg "a" ⟨"hi", none, none, some ⟨some 0, none⟩⟩
      = (.httpError 500 "usage limit exceeded", demoReg, 0) :=
  run_sync_usage_limits_enforced.2 cmText 3 demoReg "a"
    ⟨"hi", none, none, some ⟨some 0, none⟩⟩ demoAgent none rfl rfl (by decide)

/-- The raw request body of the C2 counterexample: a run request that supplies
usage_limits with max_total_tokens = 0. -/
def rawLimitedReq : RawRunRequest := ⟨"hi", none, none, some ⟨some 0, none⟩⟩

/-- C2 counterexample to the claim as stated: against the pydantic wrapper, a
run_sync call that supplies usage_limits with max_total_tokens = 0 succeeds —
the RunRequest model has no usage_limits field, so validation discards the
supplied limits, the handler passes none to the run, and the model is called
instead of the run failing with UsageLimitExceeded. -/
theorem pydantic_run_discards_usage_limits :
    rawLimitedReq.usage_limits = some ⟨some 0, none⟩ ∧
    (parseRunRequest rawLimitedReq).prompt = "hi" ∧
    statusOf (run_agent (pydanticRunner cmText 3) demoReg "a" (parseRunRequest rawLimitedReq)).1
      = 200 :=
  ⟨rfl, rfl, rfl⟩

/-- C3 (amended): whenever the pydantic run handler completes successfully, its
response body is a JSON object carrying exactly the result data, the full
message sequence of the run in order, and the usage counters, and the registry
is untouched. -/
theorem run_agent_success_shape
    (runner : Agent → String → Option (List ModelMessage) → Option Json → Except String RunResult)
    (reg : Registry) (agent_id : String) (req : RunRequest) (agent : Agent) (r : RunResult)
    (hl : lookupAgent reg agent_id = some agent)
    (hr : runner agent req.prompt req.message_history req.model_settings = .ok r) :
    (run_agent runner reg agent_id req).1
      = .ok (.jobj [("result", encodeValue r.data),
                    ("messages", .jarr (r.messages.map encodeMessage)),
                    ("usage", encodeUsage r.usage)]) ∧
    Json.keys (.jobj [("result", encodeValue r.data),
                      ("messages", .jarr (r.messages.map encodeMessage)),
                      ("usage", encodeUsage r.usage)]) = ["result", "messages", "usage"] ∧
    (run_agent runner reg agent_id req).2 = reg := by
  refine ⟨?_, rfl, run_agent_registry runner reg agent_id req⟩
  simp only [run_agent, hl, hr]

/-- The concrete outcome of the one-reply run used by witnesses. -/
def demoRunOutcome : RunResult :=
  ⟨.vstr "hi",
   initialMessages demoAgent "hi" none ++ [⟨MessageKind.response, [MessagePart.textPart "hi"]⟩],
   ⟨1, 0, 5, 5⟩⟩

/-- C3 witness: the concrete successful run produces the three-field body. -/
theorem run_agent_success_shape_witness :
    (run_agent (pydanticRunner cmText 3) demoReg "a" demoRunReq).1
      = .ok (.jobj [("result", encodeValue demoRunOutcome.data),
                    ("messages", .jarr (demoRunOutcome.messages.map encodeMessage)),
                    ("usage", encodeUsage demoRunOutcome.usage)]) :=
  (run_agent_success_shape (pydanticRunner cmText 3) demoReg "a" demoRunReq demoAgent
    demoRunOutcome rfl rfl).1

/-- A run request for the axon run_sync with no optional inputs. -/
def axonPlainReq : AxonRunRequest := ⟨"hi", none, none, none⟩

/-- C3 counterexample to the claim as stated: a successful axon run_sync call
returns a body whose keys are result and usage only — the message sequence is
omitted. -/
theorem axon_run_sync_omits_messages :
    (axon_run_agent_sync cmText 3 demoReg "a" axonPlainReq).1
      = .ok (.jobj [("result", .jstr "hi"), ("usage", encodeUsage ⟨1, 0, 5, 5⟩)]) ∧
    Json.keys (.jobj [("result", .jstr "hi"), ("usage", encodeUsage ⟨1, 0, 5, 5⟩)])
      = ["result", "usage"] ∧
    "messages" ∉ Json.keys (.jobj [("result", .jstr "hi"), ("usage", encodeUsage ⟨1, 0, 5, 5⟩)]) :=
  ⟨rfl, rfl, by decide⟩

/-- Modelled from the spec (section 4.4): the text fragments a streaming run
emits — fragments are only emitted for the text content of model responses,
never for tool-call/tool-return bookkeeping. -/
def textFragments (msgs : List ModelMessage) : List String :=
  msgs.flatMap (fun m =>
    match m.kind with
    | .response => m.parts.filterMap (fun p =>
        match p with
        | .textPart c => some c
        | _ => none)
    | .request => [])

/-- Modelled from the spec (section 4.4): `Agent.run_stream`, which lives in
the external pydantic-ai library and not under src/ — the same setup and run as
4.3, returning the lazy sequence of text fragments together with the final
validated RunResult that becomes accessible once the sequence is exhausted. -/
def agentRunStream (callModel : List ModelMessage → ModelReply) (retries : Nat)
    (agent : Agent) (prompt : String) (history : Option (List ModelMessage))
    (limits : Option UsageLimits) : Except RunError (List String × RunResult) :=
  match (runLoop agent callModel limits retries
      (initialMessages agent prompt history) ⟨0, 0, 0, 0⟩ 0).1 with
  | .ok r => .ok (textFragments r.messages, r)
  | .error e => .error e

/-- `agent.run_stream` as invoked by the pydantic run_agent_stream handler
(lines 128-132 of pydantic_agent_wrapper.py): prompt, message_history and
model_settings are passed and no usage_limits argument; a failure during the
run surfaces as the terminal error element of the fragment source (spec
section 4.4) rather than as an exception to the consumer. -/
def pydanticStreamSource (callModel : List ModelMessage → ModelReply) (retries : Nat)
    (agent : Agent) (prompt : String) (history : Option (List ModelMessage))
    (_settings : Option Json) : Except String StreamSource :=
  match agentRunStream callModel retries agent prompt history none with
  | .ok (frags, _r) => .ok ⟨frags, none⟩
  | .error e => .ok ⟨[], some (runErrMsg e)⟩

/-- A run started from a non-empty history only appends to it: the history is
the initial segment of the message sequence of any successful outcome. -/
theorem runLoop_history_take (agent : Agent) (callModel : List ModelMessage → ModelReply)
    (limits : Option UsageLimits) (retries : Nat) (prompt : String)
    (h : List ModelMessage) (r : RunResult) (hne : h ≠ [])
    (hx : (runLoop agent callModel limits retries
        (initialMessages agent prompt (some h)) ⟨0, 0, 0, 0⟩ 0).1 = .ok r) :
    r.messages.take h.length = h := by
  obtain ⟨m, rest, rfl⟩ : ∃ m rest, h = m :: rest := by
    cases h with
    | nil => exact absurd rfl hne
    | cons m rest => exact ⟨m, rest, rfl⟩
  obtain ⟨s, hs⟩ := runLoop_ok_extends agent callModel limits retries
    (initialMessages agent prompt (some (m :: rest))) ⟨0, 0, 0, 0⟩ 0 r hx
  rw [hs]
  rw [show initialMessages agent prompt (some (m :: rest))
        = (m :: rest) ++ [⟨MessageKind.request, [MessagePart.userPromptPart prompt]⟩]
      from rfl]
  rw [List.append_assoc]
  exact take_length_append _ _

/-- C7 (spec-modelled run loop): no dispatcher call mutates a supplied
non-empty message history.  The pydantic run_sync and run_stream handlers and
the axon run_sync handler all leave their state unchanged on every outcome,
and along each of the three run paths — the synchronous run, the streaming run
(through its final RunResult, accessible once the fragment sequence is
exhausted), and the axon run — the run only appends, so the supplied history
reappears element-for-element as the initial segment of the message sequence
of every successful run. -/
theorem run_history_not_mutated
    (callModel : List ModelMessage → ModelReply) (retries : Nat)
    (reg : Registry) (agent_id : String) (req : RunRequest) (areq : AxonRunRequest)
    (h : List ModelMessage)
    (hh : req.message_history = some h) (hah : areq.message_history = some h)
    (hne : h ≠ []) :
    (run_agent (pydanticRunner callModel retries) reg agent_id req).2 = reg ∧
    (run_agent_stream (pydanticStreamSource callModel retries) reg agent_id req).2 = reg ∧
    (∀ (agent : Agent) (r : RunResult),
        pydanticRunner callModel retries agent req.prompt req.message_history req.model_settings
          = .ok r →
        r.messages.take h.length = h) ∧
    (∀ (limits : Option UsageLimits) (agent : Agent) (frags : List String) (r : RunResult),
        agentRunStream callModel retries agent req.prompt req.message_history limits
          = .ok (frags, r) →
        r.messages.take h.length = h) ∧
    (axon_run_agent_sync callModel retries reg agent_id areq).2.1 = reg ∧
    (∀ (agent : Agent) (r : RunResult) (calls : Nat),
        agentRunSync callModel retries agent areq.prompt areq.message_history areq.usage_limits
          = (.ok r, calls) →
        r.messages.take h.length = h) := by
  refine ⟨run_agent_registry (pydanticRunner callModel retries) reg agent_id req,
          run_agent_stream_registry (pydanticStreamSource callModel retries) reg agent_id req,
          ?_, ?_,
          axon_run_agent_sync_registry callModel retries reg agent_id areq, ?_⟩
  · intro agent r hr
    unfold pydanticRunner at hr
    rw [hh] at hr
    revert hr
    cases hx : (runLoop agent callModel none retries
        (initialMessages agent req.prompt (some h)) ⟨0, 0, 0, 0⟩ 0).1 with
    | error e =>
      intro hr
      simp at hr
    | ok r2 =>
      intro hr
      obtain rfl : r2 = r := Except.ok.inj hr
      exact runLoop_history_take agent callModel none retries req.prompt h r2 hne hx
  · intro limits agent frags r hr
    unfold agentRunStream at hr
    rw [hh] at hr
    revert hr
    cases hx : (runLoop agent callModel limits retries
        (initialMessages agent req.prompt (some h)) ⟨0, 0, 0, 0⟩ 0).1 with
    | error e =>
      intro hr
      simp at hr
    | ok r2 =>
      intro hr
      obtain rfl : r2 = r := congrArg Prod.snd (Except.ok.inj hr)
      exact runLoop_history_take agent callModel limits retries req.prompt h r2 hne hx
  · intro agent r calls hr
    unfold agentRunSync at hr
    rw [hah] at hr
    have hx : (runLoop agent callModel areq.usage_limits retries
        (initialMessages agent areq.prompt (some h)) ⟨0, 0, 0, 0⟩ 0).1 = .ok r :=
      congrArg Prod.fst hr
    exact runLoop_history_take agent callModel areq.usage_limits retries areq.prompt h r hne hx

/-- The one-message history used by the C7 witness. -/
def histHistory : List ModelMessage :=
  [⟨MessageKind.request, [MessagePart.userPromptPart "prev"]⟩]

/-- A run request carrying the non-empty history `histHistory`. -/
def histReq : RunRequest := ⟨"hi", some histHistory, none, none, none, none⟩

/-- The axon run_sync request carrying the same non-empty history. -/
def axonHistReq : AxonRunRequest := ⟨"hi", some histHistory, none, none⟩

/-- The concrete outcome of the one-reply run started from `histHistory`. -/
def histRunOutcome : RunResult :=
  ⟨.vstr "hi",
   initialMessages demoAgent "hi" (some histHistory)
     ++ [⟨MessageKind.response, [MessagePart.textPart "hi"]⟩],
   ⟨1, 0, 5, 5⟩⟩

/-- C7 witness: concrete instances of every part — the three handlers leave
the concrete registry unchanged, the streaming and synchronous runs over the
one-message history produce `histRunOutcome` (so the history-extension parts
are exercised, not vacuous), and that outcome keeps the history as the initial
segment of its message sequence. -/
theorem run_history_not_mutated_witness :
    (run_agent (pydanticRunner cmText 3) demoReg "a" histReq).2 = demoReg ∧
    (run_agent_stream (pydanticStreamSource cmText 3) demoReg "a" histReq).2 = demoReg ∧
    (axon_run_agent_sync cmText 3 demoReg "a" axonHistReq).2.1 = demoReg ∧
    agentRunStream cmText 3 demoAgent "hi" (some histHistory) none
      = .ok (["hi"], histRunOutcome) ∧
    agentRunSync cmText 3 demoAgent "hi" (some histHistory) none = (.ok histRunOutcome, 1) ∧
    histRunOutcome.messages.take histHistory.length = histHistory := by
  have T := run_history_not_mutated cmText 3 demoReg "a" histReq axonHistReq histHistory
    rfl rfl (by decide)
  exact ⟨T.1, T.2.1, T.2.2.2.2.1, rfl, rfl,
         T.2.2.2.1 none demoAgent ["hi"] histRunOutcome rfl⟩

end Synapse
